import Mathlib

/-!
Verification of the agentic tool-calling orchestrator of `src/agent`
(`agent_chain.py`, `tools_registry.py`) as a shallow embedding.

Conventions of the embedding:
* Python strings are `String`, machine text positions are `List Char`
  obtained through `String.data`.
* Python exceptions are the `Except` error channel (`PyError`); a Python
  function that cannot raise is a plain Lean function.
* Wall-clock timestamps, logging and database writes are I/O that cannot
  influence the control flow or any value the claims talk about; they are
  dropped from the embedding.
* The regular expressions of `_parse_decision` are hand-compiled to
  deterministic matchers.  Each regex used by the source is backtracking
  free at a fixed start position except for one alternation, which is
  modelled by an explicit `<|>` over the remainder of the pattern; the
  accompanying comments justify the compilation.
-/

namespace AgentChainSpec

/-- Characters matched by the regex class `\s` of Python `re` on ASCII
text: space, tab, newline, carriage return, vertical tab, form feed.
(Exotic Unicode whitespace is also in Python's `\s`; no claim involves
it, and no source string constant contains it.) -/
def pySpace (c : Char) : Bool :=
  c = ' ' || c = '\t' || c = '\n' || c = '\r' || c = '\x0b' || c = '\x0c'

/-- Case-insensitive character comparison, as performed by `re.IGNORECASE`
on ASCII letters. -/
def ciEq (c d : Char) : Bool := c.toLower == d.toLower

/-- Match a literal pattern (first argument) at the head of the input,
returning the rest of the input on success.  Models a case-sensitive
literal piece of a regex. -/
def litMatch : List Char → List Char → Option (List Char)
  | [], l => some l
  | _ :: _, [] => none
  | p :: ps, c :: cs => if p = c then litMatch ps cs else none

/-- Match a literal pattern case-insensitively (`re.IGNORECASE`). -/
def ciLit : List Char → List Char → Option (List Char)
  | [], l => some l
  | _ :: _, [] => none
  | p :: ps, c :: cs => if ciEq p c then ciLit ps cs else none

/-- Match `\s+` (one or more whitespace characters, greedy).  In every
regex of `_parse_decision` the token following `\s+` starts with a
non-whitespace character, so maximal munch needs no backtracking. -/
def spaces1 : List Char → Option (List Char)
  | [] => none
  | c :: cs => if pySpace c then some (cs.dropWhile pySpace) else none

/-- Attempt the regex `USE_TOOL\s*\[([^\]]+)\]\s*\{([^}]*)\}`
(agent_chain.py:365) at a fixed start position, returning the two
capture groups.  At a fixed position the regex is deterministic: after
each greedy `\s*` the next literal is `[` or `{` (not whitespace), and
each negated character class runs up to the very bracket that must
follow it, so no backtracking alternative can succeed. -/
def matchUseToolAt (l : List Char) : Option (String × String) :=
  match litMatch ['U','S','E','_','T','O','O','L'] l with
  | none => none
  | some l1 =>
    match l1.dropWhile pySpace with
    | '[' :: l2 =>
      let g1 := l2.takeWhile (fun c => !(c = ']'))
      match l2.dropWhile (fun c => !(c = ']')) with
      | ']' :: l3 =>
        if g1.isEmpty then none
        else
          match l3.dropWhile pySpace with
          | '\x7b' :: l4 =>
            let g2 := l4.takeWhile (fun c => !(c = '\x7d'))
            match l4.dropWhile (fun c => !(c = '\x7d')) with
            | '\x7d' :: _ => some (String.mk g1, String.mk g2)
            | _ => none
          | _ => none
      | _ => none
    | _ => none

/-- Leftmost-match search, as `re.search` performs it: try each start
position from the left, first success wins. -/
def searchAux {α : Type} (m : List Char → Option α) : List Char → Option α
  | [] => m []
  | c :: rest =>
    match m (c :: rest) with
    | some r => some r
    | none => searchAux m rest

/-- The search `re.search(r"USE_TOOL\s*\[([^\]]+)\]\s*\{([^}]*)\}", text, re.DOTALL)`
of agent_chain.py:365.  (`re.DOTALL` only affects `.`, which the pattern
does not contain.) -/
def useToolSearch (s : String) : Option (String × String) :=
  searchAux matchUseToolAt s.data

/-- The test `re.search(r"^\s*<w>\s*:", text, re.IGNORECASE)` used with
`w = yes` (agent_chain.py:396) and `w = no` (agent_chain.py:442).
Without `re.MULTILINE` the anchor `^` only matches at position 0, so the
search succeeds exactly when the whole string starts with optional
whitespace, the word, optional whitespace and a colon. -/
def startsWithCiColon (w : List Char) (s : String) : Bool :=
  match ciLit w (s.data.dropWhile pySpace) with
  | some rest =>
    match rest.dropWhile pySpace with
    | ':' :: _ => true
    | _ => false
  | none => false

/-- `re.search(r'^\s*yes\s*:', decision_text, re.IGNORECASE)` (line 396). -/
def startsYes (s : String) : Bool := startsWithCiColon ['y','e','s'] s

/-- `re.search(r'^\s*no\s*:', decision_text, re.IGNORECASE)` (line 442). -/
def startsNo (s : String) : Bool := startsWithCiColon ['n','o'] s

/-- The lazy group-and-closer `(.*?)['\"]` that ends the two
natural-language tool regexes: the group is the shortest run of
characters (none of which may be a newline, since `.` does not match
`\n` without `re.DOTALL`) up to the next `'` or `"`.  Laziness is
modelled by testing the closing quote before extending the group. -/
def quotedGroup : List Char → Option (List Char)
  | [] => none
  | c :: rest =>
    if c = '\x27' || c = '"' then some []
    else if c = '\n' then none
    else
      match quotedGroup rest with
      | some g => some (c :: g)
      | none => none

/-- The tail `['\"](.*?)['\"]` of the natural-language regexes: an
opening quote (either kind), then the lazy group. -/
def quotedAt : List Char → Option String
  | [] => none
  | c :: rest =>
    if c = '\x27' || c = '"' then (quotedGroup rest).map String.mk
    else none

/-- One alternative of the argument-word alternation followed by
`\s+['\"](.*?)['\"]`. -/
def argAndValue (argWord : List Char) (l : List Char) : Option String := do
  let l1 ← ciLit argWord l
  let l2 ← spaces1 l1
  quotedAt l2

/-- Attempt, at a fixed start position, the regex
`call\s+the\s+<tool>\s+tool\s+with\s+(?:<arg1>|<arg2>)\s+['\"](.*?)['\"]`
with `re.IGNORECASE` (agent_chain.py:400-404 and 419-423), returning the
capture group.  Every `\s+` is followed by a letter or quote, so greedy
whitespace needs no backtracking; the single alternation backtracks over
the remainder of the pattern, modelled by trying `arg1` with the full
tail first and `arg2` with the full tail second. -/
def matchToolPhraseAt (toolWord arg1 arg2 : String) (l : List Char) : Option String := do
  let l1 ← ciLit ['c','a','l','l'] l
  let l2 ← spaces1 l1
  let l3 ← ciLit ['t','h','e'] l2
  let l4 ← spaces1 l3
  let l5 ← ciLit toolWord.data l4
  let l6 ← spaces1 l5
  let l7 ← ciLit ['t','o','o','l'] l6
  let l8 ← spaces1 l7
  let l9 ← ciLit ['w','i','t','h'] l8
  let l10 ← spaces1 l9
  match argAndValue arg1.data l10 with
  | some g => some g
  | none => argAndValue arg2.data l10

/-- The search for
`call\s+the\s+send_notification\s+tool\s+with\s+(?:message|notification)\s+['\"](.*?)['\"]`
(agent_chain.py:400-404). -/
def notifSearch (s : String) : Option String :=
  searchAux (matchToolPhraseAt "send_notification" "message" "notification") s.data

/-- The search for
`call\s+the\s+inject_instruction\s+tool\s+with\s+(?:instruction|message)\s+['\"](.*?)['\"]`
(agent_chain.py:419-423). -/
def instrSearch (s : String) : Option String :=
  searchAux (matchToolPhraseAt "inject_instruction" "instruction" "message") s.data

/-- Substring containment over character lists, for the Python
membership test `"DO_NOT_USE_TOOL" in decision_text` (line 442). -/
def containsSeq (pat : List Char) : List Char → Bool
  | [] => pat.isEmpty
  | c :: rest => pat.isPrefixOf (c :: rest) || containsSeq pat rest

/-- `"DO_NOT_USE_TOOL" in decision_text` (agent_chain.py:442). -/
def containsDoNot (s : String) : Bool :=
  containsSeq ['D','O','_','N','O','T','_','U','S','E','_','T','O','O','L'] s.data

/-- Tool argument dictionaries.  The arguments produced by the
natural-language branch of `_parse_decision` are string-valued
(`{"message": ...}`, `{"instruction": ...}`); insertion order of the
Python dict is the list order. -/
def Args : Type := List (String × String)

instance : DecidableEq Args := by unfold Args; infer_instance

/-- A Python exception value.  The only statement of the subsystem that
can raise outside of a `try` block is the registry membership test of
agent_chain.py:373 (see `ToolRegistry.memTest`). -/
inductive PyError : Type
  | typeError (msg : String)
deriving DecidableEq

/-- The value a registered tool returns to `_execute_tool`, as far as the
orchestrator inspects it (agent_chain.py:310-330): a dict is only read
through `get("success", False)` and `get("error", "Unknown error")`,
a string is rendered (possibly truncated), anything else is rendered via
`str`. `dictRes success error?` models a dict by those two projections. -/
inductive ToolResult : Type
  | dictRes (success : Bool) (error : Option String)
  | strRes (s : String)
  | otherRes (rendered : String)
deriving DecidableEq

/-- A capability body: called with the parsed arguments, it either
returns a value or raises (error channel carries `str(e)`).  The actual
bodies (`read_file`, `write_file`) perform file I/O, which the claims
quantify over, so bodies stay parameters of the development. -/
def ToolFn : Type := Args → Except String ToolResult

/-- The tool registry of tools_registry.py:24-80: a name-keyed table of
tool functions (`self.tools`).  The `tool_specs` list is only consulted
by the oracle-side prompt assembly, never by the orchestrator, and is
omitted. -/
structure ToolRegistry : Type where
  tools : List (String × ToolFn)

/-- `ToolRegistry.get_tool` (tools_registry.py:58-68): `self.tools.get(name)`. -/
def ToolRegistry.get_tool (r : ToolRegistry) (name : String) : Option ToolFn :=
  List.lookup name r.tools

/-- The membership test `tool_name not in self.tools_registry` of
agent_chain.py:373, written against the `ToolRegistry` *object* (not its
`tools` dict).  Python evaluates `x in obj` via `obj.__contains__`, else
`obj.__iter__`, else the `obj.__getitem__` sequence protocol;
`ToolRegistry` (tools_registry.py:24-80) defines none of the three, so
the expression raises `TypeError("argument of type 'ToolRegistry' is not
iterable")` for every `tool_name`.  The membership test therefore never
yields a boolean. -/
def ToolRegistry.memTest (_r : ToolRegistry) (_name : String) : Except PyError Bool :=
  .error (.typeError "argument of type \x27ToolRegistry\x27 is not iterable")

/-- The registry built by `ToolRegistry.__init__` (tools_registry.py:27-44):
`read_file` then `write_file`, in registration order, with the given
bodies. -/
def toolsRegistryWith (rf wf : ToolFn) : ToolRegistry :=
  ⟨[("read_file", rf), ("write_file", wf)]⟩

/-- Python `str.strip()` with no argument (used on the regex capture
groups at agent_chain.py:369-370, 406 and 425): remove leading and
trailing whitespace. -/
def pyStrip (s : String) : String :=
  String.mk (((s.data.dropWhile pySpace).reverse.dropWhile pySpace).reverse)

/-- The parsed decision dict built by `_parse_decision`: either
`{"should_use_tool": False, "reason": r}` or
`{"should_use_tool": True, "tool_name": n, "tool_args": a}`. -/
inductive ParsedDecision : Type
  | noTool (reason : String)
  | useTool (name : String) (args : Args)
deriving DecidableEq

/-- `AgentChain._parse_decision` (agent_chain.py:340-449).  The argument
sub-parser `_parse_tool_args` (lines 451-495) is represented by the
parameter `jl`: it is a total function (its body catches every
exception), its only call site is line 379, and no claim depends on the
dictionary it produces, so the theorems below quantify over it. -/
def parse_decision (reg : ToolRegistry) (jl : String → Args) (text : String) :
    Except PyError ParsedDecision :=
  if text = "" then .ok (.noTool "No tool specified in decision")
  else
    match useToolSearch text with
    | some (g1, g2) =>
      let name := pyStrip g1
      let argsStr := pyStrip g2
      match ToolRegistry.memTest reg name with
      | .error e => .error e
      | .ok mem =>
        if !mem then
          .ok (.noTool ("Tool \x27" ++ name ++ "\x27 not found in registry"))
        else .ok (.useTool name (jl argsStr))
    | none =>
      if startsYes text then
        match notifSearch text with
        | some msg => .ok (.useTool "send_notification" [("message", pyStrip msg)])
        | none =>
          match instrSearch text with
          | some ins => .ok (.useTool "inject_instruction" [("instruction", pyStrip ins)])
          | none =>
            if containsDoNot text || startsNo text then
              .ok (.noTool "Agent explicitly decided not to use a tool")
            else .ok (.noTool "Couldn\x27t parse tool details from \x27Yes:\x27 decision")
      else
        if containsDoNot text || startsNo text then
          .ok (.noTool "Agent explicitly decided not to use a tool")
        else .ok (.noTool "No tool specified in decision")

/-- `AgentChain._execute_tool` (agent_chain.py:497-539): look the tool up
with `get_tool`; a missing tool or a raising body is caught and turned
into the error dict `{"error": msg}` (a dict without a `"success"` key,
hence `success = false` under `get("success", False)`). -/
def execute_tool (reg : ToolRegistry) (name : String) (args : Args) : ToolResult :=
  match reg.get_tool name with
  | none => .dictRes false (some ("Tool \x27" ++ name ++ "\x27 not found in registry"))
  | some f =>
    match f args with
    | .ok r => r
    | .error e =>
      .dictRes false (some ("Error executing tool \x27" ++ name ++ "\x27: " ++ e))

/-- An entry of `decision_history` (agent_chain.py:187-192), without the
wall-clock timestamp. -/
structure DecisionEntry : Type where
  iteration : Nat
  decision : String
deriving DecidableEq

/-- An entry of `action_history` (agent_chain.py:223-230), without the
wall-clock timestamp. -/
structure ActionEntry : Type where
  iteration : Nat
  tool_name : String
  tool_args : Args
  tool_result : ToolResult
deriving DecidableEq

/-- `", ".join([f"{k}='{v}'" for k, v in tool_args.items()])`
(agent_chain.py:305). -/
def renderArgs (args : Args) : String :=
  String.intercalate ", " (args.map (fun kv => kv.1 ++ "=\x27" ++ kv.2 ++ "\x27"))

/-- The result-summary line of `_format_history_for_next_iteration`
(agent_chain.py:310-330). -/
def renderResult (toolName : String) : ToolResult → String
  | .dictRes success error =>
    if success then
      if toolName = "send_notification" then "Result: Notification sent successfully"
      else if toolName = "inject_instruction" then "Result: Instruction injected successfully"
      else "Result: Tool execution successful"
    else "Result: Tool execution failed - " ++ error.getD "Unknown error"
  | .strRes s =>
    if 100 < s.length then "Result: " ++ s.take 100 ++ "..."
    else "Result: " ++ s
  | .otherRes rendered => "Result: " ++ rendered

/-- The body of the `for i in range(recent_entries)` loop of
`_format_history_for_next_iteration` (agent_chain.py:289-332) for one
index `idx`: the decision line, then — when an action exists at the same
index — the tool line and the result line, then the empty separator
line.  (The source guard `if idx >= 0` is vacuous for natural numbers
and the indices the caller produces.) -/
def entryLines (dh : List DecisionEntry) (ah : List ActionEntry) (idx : Nat) : List String :=
  match dh[idx]? with
  | none => []
  | some d =>
    let line1 := "Iteration " ++ toString d.iteration ++ " Decision: " ++ d.decision
    match ah[idx]? with
    | some a =>
      [line1,
       "Iteration " ++ toString d.iteration ++ " Tool executed: " ++ a.tool_name ++
         "(" ++ renderArgs a.tool_args ++ ")",
       renderResult a.tool_name a.tool_result,
       ""]
    | none => [line1, ""]

/-- `AgentChain._format_history_for_next_iteration` (agent_chain.py:272-338):
a header, the loop over the last `min(len(decision_history), 3)` indices,
two fixed trailing instruction lines, joined with `"\n"`. -/
def format_history (dh : List DecisionEntry) (ah : List ActionEntry) : String :=
  let recent := min dh.length 3
  let idxs := (List.range recent).map (fun i => dh.length - recent + i)
  String.intercalate "\n"
    (["**Previous actions and decisions:**\n"] ++
     idxs.flatMap (entryLines dh ah) ++
     ["\nBased on the previous actions and their results, decide if another tool should be used.",
      "Remember that you can either choose to use a tool again or decide that no further action is needed at this time."])

/-- The final-result dict of `AgentChain.execute`, in its three shapes
(agent_chain.py:200-208 no-action, 235-246 max-iterations, 259-263 the
defensive fallback built when the loop ends with `final_result is None`).
Timestamp fields are omitted. -/
inductive ChainResult : Type
  | noAction (decision : String) (reason : String)
      (decision_history : List DecisionEntry) (action_history : List ActionEntry)
      (iterations : Nat)
  | maxReached (tool_used : String) (tool_args : Args) (tool_result : ToolResult)
      (decision : String)
      (decision_history : List DecisionEntry) (action_history : List ActionEntry)
      (iterations : Nat)
  | incomplete (error : String)
deriving DecidableEq

/-- The `action_taken` field of the final-result dict (`False`, `True`,
`False` respectively). -/
def ChainResult.action_taken : ChainResult → Bool
  | .noAction .. => false
  | .maxReached .. => true
  | .incomplete _ => false

/-- The `iterations` field of the final-result dict.  The fallback dict
of agent_chain.py:259-263 carries no `iterations` key; it is given the
default `0` here, and `chainLoop_ok_spec` shows it is never returned by
`execute`. -/
def ChainResult.iterations : ChainResult → Nat
  | .noAction _ _ _ _ i => i
  | .maxReached _ _ _ _ _ _ i => i
  | .incomplete _ => 0

/-- The `decision_history` field (default `[]` for the fallback dict,
which carries none). -/
def ChainResult.decision_history : ChainResult → List DecisionEntry
  | .noAction _ _ dh _ _ => dh
  | .maxReached _ _ _ _ dh _ _ => dh
  | .incomplete _ => []

/-- The `action_history` field (default `[]` for the fallback dict,
which carries none). -/
def ChainResult.action_history : ChainResult → List ActionEntry
  | .noAction _ _ _ ah _ => ah
  | .maxReached _ _ _ _ _ ah _ => ah
  | .incomplete _ => []

/-- The `reason` field of the no-action result (agent_chain.py:203). -/
def ChainResult.reason : ChainResult → Option String
  | .noAction _ r _ _ _ => some r
  | _ => none

/-- The `while current_iteration < max_iterations` loop of
`AgentChain.execute` (agent_chain.py:164-255), with
`fuel = max_iterations - current_iteration` made explicit so that the
recursion is structural: at loop entry the source condition
`current_iteration < max_iterations` is `fuel > 0` (the `fuel = 0` case
is the loop falling through with `final_result is None`, yielding the
fallback dict of lines 259-263), and after `current_iteration += 1` the
source test `current_iteration >= max_iterations` (line 233) is
`fuel = 1`, i.e. the `fuel = 0` test on the remaining fuel.

`oracle i p` is the decision text of `ThinkingAgent.process_message` for
round `i` under prompt `p` — `process_message` catches every exception
and always returns a dict with a string `"decision"` key
(thinking_agent.py:57-126), so the oracle is a total function.  The
prompt of round 1 is the caller's `custom_prompt`; every later round
uses `_format_history_for_next_iteration` (lines 249-255). -/
def chainLoop (reg : ToolRegistry) (jl : String → Args) (oracle : Nat → String → String) :
    Nat → Nat → String → List DecisionEntry → List ActionEntry → Except PyError ChainResult
  | 0, _, _, _, _ => .ok (.incomplete "Execution chain completed without a final result")
  | fuel + 1, cur, p, dh, ah =>
    let i := cur + 1
    let text := oracle i p
    let dh' := dh ++ [⟨i, text⟩]
    match parse_decision reg jl text with
    | .error e => .error e
    | .ok (.noTool reason) => .ok (.noAction text reason dh' ah i)
    | .ok (.useTool name args) =>
      let res := execute_tool reg name args
      let ah' := ah ++ [⟨i, name, args, res⟩]
      if fuel = 0 then .ok (.maxReached name args res text dh' ah' i)
      else chainLoop reg jl oracle fuel i (format_history dh' ah') dh' ah'

/-- `AgentChain.execute` (agent_chain.py:132-270): `max_iterations = 5`,
`current_iteration = 0`, empty histories, first-round prompt `p0`. -/
def execute (reg : ToolRegistry) (jl : String → Args) (oracle : Nat → String → String)
    (p0 : String) : Except PyError ChainResult :=
  chainLoop reg jl oracle 5 0 p0 [] []

/-- A trivial capability body, used to instantiate the registry in
concrete runs. -/
def stubTool : ToolFn := fun _ => .ok (.strRes "")

/-- The source registry with trivial bodies, for concrete runs. -/
def regStub : ToolRegistry := toolsRegistryWith stubTool stubTool

/-- A trivial instance of the `_parse_tool_args` parameter, for concrete
runs. -/
def jlStub : String → Args := fun _ => []

/-- A 101-character string, used to exercise the 100-character
truncation bound. -/
def longStr : String := String.mk (List.replicate 101 'a')

theorem string_ne_empty_of_startsNo (s : String) (h : startsNo s = true) : ¬ s = "" := by
  rintro rfl
  exact absurd h (by decide)

theorem string_ne_empty_of_startsYes (s : String) (h : startsYes s = true) : ¬ s = "" := by
  rintro rfl
  exact absurd h (by decide)

theorem startsYes_false_of_startsNo (s : String) (h : startsNo s = true) :
    startsYes s = false := by
  unfold startsNo startsYes startsWithCiColon at *
  cases hd : s.data.dropWhile pySpace with
  | nil => rw [hd] at h; simp [ciLit] at h
  | cons c t =>
    rw [hd] at h
    cases hc : ciEq 'n' c with
    | false => simp [ciLit, hc] at h
    | true =>
      have hbe : ('n'.toLower == c.toLower) = true := hc
      have hcl : c.toLower = 'n' :=
        (eq_of_beq hbe).symm.trans (show 'n'.toLower = 'n' by decide)
      simp [ciLit, ciEq, hcl]

theorem startsNo_false_of_startsYes (s : String) (h : startsYes s = true) :
    startsNo s = false := by
  unfold startsNo startsYes startsWithCiColon at *
  cases hd : s.data.dropWhile pySpace with
  | nil => rw [hd] at h; simp [ciLit] at h
  | cons c t =>
    rw [hd] at h
    cases hc : ciEq 'y' c with
    | false => simp [ciLit, hc] at h
    | true =>
      have hbe : ('y'.toLower == c.toLower) = true := hc
      have hcl : c.toLower = 'y' :=
        (eq_of_beq hbe).symm.trans (show 'y'.toLower = 'y' by decide)
      simp [ciLit, ciEq, hcl]

/-- Loop invariant of `chainLoop`: a run started with positive fuel and
aligned histories returns, when it returns a result at all, either a
no-action result whose decision history is one longer than its action
history, or a max-iterations result with equal history lengths; in both
cases the history lengths equal the `iterations` field, which exceeds
the entry counter by at least one and by at most the fuel. -/
theorem chainLoop_ok_spec (reg : ToolRegistry) (jl : String → Args)
    (oracle : Nat → String → String) :
    ∀ (fuel : Nat), 0 < fuel → ∀ (cur : Nat) (p : String) (dh : List DecisionEntry)
      (ah : List ActionEntry) (r : ChainResult),
      dh.length = cur → ah.length = cur →
      chainLoop reg jl oracle fuel cur p dh ah = .ok r →
      ((∃ t re d a i, r = .noAction t re d a i ∧
          d.length = i ∧ a.length + 1 = i ∧ cur < i ∧ i ≤ cur + fuel) ∨
       (∃ n ar res t d a i, r = .maxReached n ar res t d a i ∧
          d.length = i ∧ a.length = i ∧ cur < i ∧ i ≤ cur + fuel)) := by
  intro fuel
  induction fuel with
  | zero => intro h; exact absurd h (by omega)
  | succ f ih =>
    intro _ cur p dh ah r hdh hah hrun
    simp only [chainLoop] at hrun
    cases hpd : parse_decision reg jl (oracle (cur + 1) p) with
    | error e => rw [hpd] at hrun; cases hrun
    | ok pd =>
      rw [hpd] at hrun
      cases pd with
      | noTool reason =>
        simp only [Except.ok.injEq] at hrun
        subst hrun
        refine Or.inl ⟨_, _, _, _, cur + 1, rfl, ?_, ?_, ?_, ?_⟩
        · simp [hdh]
        · omega
        · omega
        · omega
      | useTool name args =>
        simp only [] at hrun
        by_cases hf : f = 0
        · subst hf
          simp only [if_pos, Except.ok.injEq] at hrun
          subst hrun
          refine Or.inr ⟨_, _, _, _, _, _, cur + 1, rfl, ?_, ?_, ?_, ?_⟩
          · simp [hdh]
          · simp [hah]
          · omega
          · omega
        · rw [if_neg hf] at hrun
          have hrec := ih (Nat.pos_of_ne_zero hf) (cur + 1) _ _ _ r
            (by simp [hdh]) (by simp [hah]) hrun
          rcases hrec with ⟨t, re, d, a, i, hr, h1, h2, h3, h4⟩ |
            ⟨n, ar, res, t, d, a, i, hr, h1, h2, h3, h4⟩
          · exact Or.inl ⟨t, re, d, a, i, hr, h1, h2, by omega, by omega⟩
          · exact Or.inr ⟨n, ar, res, t, d, a, i, hr, h1, h2, by omega, by omega⟩

/-- C1: the claim says `_parse_decision` returns a decision value and
never raises, in particular on any input containing a structured match
`USE_TOOL[<name>]{<args>}`.  The code violates this: on every such
input, the registry membership test of agent_chain.py:373 is applied to
the `ToolRegistry` object itself, which supports no membership protocol,
so the parser raises `TypeError` — even when the named tool (here
`read_file`) is registered.  This theorem evaluates the embedded parser
at the failing input, for every registry body and every behaviour of the
argument sub-parser. -/
theorem c1_structured_input_raises (rf wf : ToolFn) (jl : String → Args) :
    parse_decision (toolsRegistryWith rf wf) jl "USE_TOOL[read_file]\x7b\x7d" =
      .error (.typeError "argument of type \x27ToolRegistry\x27 is not iterable") := rfl

/-- C4: the claim says an unregistered name in a structured match (here
`foo`) yields a `NoAction` decision whose reason contains the name.  The
code instead raises `TypeError` at the membership test of
agent_chain.py:373 before the not-found reason of line 374 can be
built. -/
theorem c4_unknown_capability_raises (rf wf : ToolFn) (jl : String → Args) :
    parse_decision (toolsRegistryWith rf wf) jl "USE_TOOL[foo]\x7b\x7d" =
      .error (.typeError "argument of type \x27ToolRegistry\x27 is not iterable") := rfl

/-- C6: the oracle text `Yes: Call the send_notification tool with
message 'hello' because user inactive` parses to an invoke decision for
`send_notification` with argument map exactly `{"message": "hello"}`,
for every registry body and argument sub-parser behaviour. -/
theorem c6_notification_phrase_parsed (rf wf : ToolFn) (jl : String → Args) :
    parse_decision (toolsRegistryWith rf wf) jl
      "Yes: Call the send_notification tool with message \x27hello\x27 because user inactive" =
      .ok (.useTool "send_notification" [("message", "hello")]) := rfl

/-- C5 counterexample: with the oracle answering `No: nothing to do.` in
round 1, the run does end with `action_taken = false` after one round,
but its reason is the fixed string `Agent explicitly decided not to use
a tool` (agent_chain.py:443), not the text `nothing to do.` after the
`no:` prefix as the claim states. -/
theorem c5_reason_counterexample :
    execute regStub jlStub (fun _ _ => "No: nothing to do.") "p" =
      .ok (.noAction "No: nothing to do." "Agent explicitly decided not to use a tool"
        [⟨1, "No: nothing to do."⟩] [] 1) ∧
    ¬ ("Agent explicitly decided not to use a tool" = "nothing to do.") :=
  ⟨rfl, by decide⟩

/-- C5 amended: text that begins (after optional whitespace) with `no:`
(case-insensitive) and contains no structured `USE_TOOL[...]{...}` match
yields a no-action decision whose reason is the fixed diagnostic `Agent
explicitly decided not to use a tool`, not the text after the prefix. -/
theorem c5_no_prefix_fixed_reason (reg : ToolRegistry) (jl : String → Args) (s : String)
    (hno : startsNo s = true) (huse : useToolSearch s = none) :
    parse_decision reg jl s = .ok (.noTool "Agent explicitly decided not to use a tool") := by
  have hne : ¬ s = "" := string_ne_empty_of_startsNo s hno
  have hyes : startsYes s = false := startsYes_false_of_startsNo s hno
  unfold parse_decision
  rw [if_neg hne, huse, hyes]
  simp [hno]

theorem c5_no_prefix_fixed_reason_witness :
    startsNo "No: nothing to do." = true ∧
    useToolSearch "No: nothing to do." = none ∧
    parse_decision regStub jlStub "No: nothing to do." =
      .ok (.noTool "Agent explicitly decided not to use a tool") :=
  ⟨rfl, rfl, c5_no_prefix_fixed_reason regStub jlStub "No: nothing to do." rfl rfl⟩

/-- C7 counterexample: the input `Yes: Use the my_notification tool with
message 'hi' because user inactive` matches the claimed generic fallback
`(use|call) the <word> tool with <word> '<value>' because <reason>` with
a name containing `notification`, yet the parser returns a no-action
decision — there is no generic fallback in `_parse_decision`
(agent_chain.py:396-449), whose yes-branch only knows the two
capability-specific phrasings. -/
theorem c7_generic_fallback_counterexample :
    parse_decision regStub jlStub
      "Yes: Use the my_notification tool with message \x27hi\x27 because user inactive" =
      .ok (.noTool "Couldn\x27t parse tool details from \x27Yes:\x27 decision") := rfl

/-- C7 amended: the yes-branch has no generic fallback.  Whenever a text
starts with `yes:` and neither capability-specific phrasing (nor the
structured grammar, nor `DO_NOT_USE_TOOL`) matches, the parser returns a
no-action decision with the diagnostic reason of agent_chain.py:439. -/
theorem c7_yes_branch_has_no_fallback (reg : ToolRegistry) (jl : String → Args) (s : String)
    (hyes : startsYes s = true) (huse : useToolSearch s = none)
    (hnotif : notifSearch s = none) (hinstr : instrSearch s = none)
    (hdnt : containsDoNot s = false) :
    parse_decision reg jl s =
      .ok (.noTool "Couldn\x27t parse tool details from \x27Yes:\x27 decision") := by
  have hne : ¬ s = "" := string_ne_empty_of_startsYes s hyes
  have hno : startsNo s = false := startsNo_false_of_startsYes s hyes
  unfold parse_decision
  rw [if_neg hne, huse]
  simp [hyes, hnotif, hinstr, hdnt, hno]

theorem c7_yes_branch_has_no_fallback_witness :
    startsYes "Yes: but unsure." = true ∧
    useToolSearch "Yes: but unsure." = none ∧
    notifSearch "Yes: but unsure." = none ∧
    instrSearch "Yes: but unsure." = none ∧
    containsDoNot "Yes: but unsure." = false ∧
    parse_decision regStub jlStub "Yes: but unsure." =
      .ok (.noTool "Couldn\x27t parse tool details from \x27Yes:\x27 decision") :=
  ⟨rfl, rfl, rfl, rfl, rfl,
   c7_yes_branch_has_no_fallback regStub jlStub "Yes: but unsure." rfl rfl rfl rfl rfl⟩

/-- C2: every run of `execute` terminates — the loop consumes one unit
of fuel per round out of `max_iterations = 5` — and every result it
returns has `iterations ≤ 5`, for every registry, every argument
sub-parser behaviour, every initial prompt and every sequence of oracle
responses. -/
theorem c2_iterations_le_max (reg : ToolRegistry) (jl : String → Args)
    (oracle : Nat → String → String) (p0 : String) (r : ChainResult)
    (h : execute reg jl oracle p0 = .ok r) : r.iterations ≤ 5 := by
  have h' : chainLoop reg jl oracle 5 0 p0 [] [] = .ok r := h
  rcases chainLoop_ok_spec reg jl oracle 5 (by omega) 0 p0 [] [] r rfl rfl h' with
    ⟨t, re, d, a, i, hr, _, _, _, h5⟩ | ⟨n, ar, res, t, d, a, i, hr, _, _, _, h5⟩ <;>
    subst hr <;> simpa [ChainResult.iterations] using h5

theorem c2_iterations_le_max_witness :
    execute regStub jlStub (fun _ _ => "No: done.") "p" =
      .ok (.noAction "No: done." "Agent explicitly decided not to use a tool"
        [⟨1, "No: done."⟩] [] 1) ∧
    (ChainResult.noAction "No: done." "Agent explicitly decided not to use a tool"
        [⟨1, "No: done."⟩] [] 1).iterations ≤ 5 :=
  ⟨rfl, c2_iterations_le_max regStub jlStub (fun _ _ => "No: done.") "p" _ rfl⟩

/-- C8: every outcome `execute` returns satisfies
`len(decision_history) = iterations` — one decision entry per completed
round, on both terminal states. -/
theorem c8_round_accounting (reg : ToolRegistry) (jl : String → Args)
    (oracle : Nat → String → String) (p0 : String) (r : ChainResult)
    (h : execute reg jl oracle p0 = .ok r) :
    r.decision_history.length = r.iterations := by
  have h' : chainLoop reg jl oracle 5 0 p0 [] [] = .ok r := h
  rcases chainLoop_ok_spec reg jl oracle 5 (by omega) 0 p0 [] [] r rfl rfl h' with
    ⟨t, re, d, a, i, hr, h1, _, _, _⟩ | ⟨n, ar, res, t, d, a, i, hr, h1, _, _, _⟩ <;>
    subst hr <;> simpa [ChainResult.decision_history, ChainResult.iterations] using h1

theorem c8_round_accounting_witness :
    execute regStub jlStub (fun _ _ => "No: all good.") "p" =
      .ok (.noAction "No: all good." "Agent explicitly decided not to use a tool"
        [⟨1, "No: all good."⟩] [] 1) ∧
    (ChainResult.noAction "No: all good." "Agent explicitly decided not to use a tool"
        [⟨1, "No: all good."⟩] [] 1).decision_history.length =
      (ChainResult.noAction "No: all good." "Agent explicitly decided not to use a tool"
        [⟨1, "No: all good."⟩] [] 1).iterations :=
  ⟨rfl, c8_round_accounting regStub jlStub (fun _ _ => "No: all good.") "p" _ rfl⟩

/-- C10: every outcome `execute` returns links its action history to the
terminal state: with `action_taken = true` (max-rounds) it records one
action per round, with `action_taken = false` (terminal no-action round)
it records one action for every round but the last. -/
theorem c10_action_history_accounting (reg : ToolRegistry) (jl : String → Args)
    (oracle : Nat → String → String) (p0 : String) (r : ChainResult)
    (h : execute reg jl oracle p0 = .ok r) :
    (r.action_taken = true → r.action_history.length = r.iterations) ∧
    (r.action_taken = false → r.action_history.length = r.iterations - 1) := by
  have h' : chainLoop reg jl oracle 5 0 p0 [] [] = .ok r := h
  rcases chainLoop_ok_spec reg jl oracle 5 (by omega) 0 p0 [] [] r rfl rfl h' with
    ⟨t, re, d, a, i, hr, _, h2, _, _⟩ | ⟨n, ar, res, t, d, a, i, hr, _, h2, _, _⟩ <;>
    subst hr <;>
    constructor <;>
    intro hat <;>
    simp [ChainResult.action_taken] at hat ⊢ <;>
    simp [ChainResult.action_history, ChainResult.iterations] <;>
    omega

theorem c10_action_history_accounting_witness :
    execute regStub jlStub (fun _ _ => "No: idle.") "p" =
      .ok (.noAction "No: idle." "Agent explicitly decided not to use a tool"
        [⟨1, "No: idle."⟩] [] 1) ∧
    (((ChainResult.noAction "No: idle." "Agent explicitly decided not to use a tool"
        [⟨1, "No: idle."⟩] [] 1).action_taken = true →
      (ChainResult.noAction "No: idle." "Agent explicitly decided not to use a tool"
        [⟨1, "No: idle."⟩] [] 1).action_history.length =
      (ChainResult.noAction "No: idle." "Agent explicitly decided not to use a tool"
        [⟨1, "No: idle."⟩] [] 1).iterations) ∧
     ((ChainResult.noAction "No: idle." "Agent explicitly decided not to use a tool"
        [⟨1, "No: idle."⟩] [] 1).action_taken = false →
      (ChainResult.noAction "No: idle." "Agent explicitly decided not to use a tool"
        [⟨1, "No: idle."⟩] [] 1).action_history.length =
      (ChainResult.noAction "No: idle." "Agent explicitly decided not to use a tool"
        [⟨1, "No: idle."⟩] [] 1).iterations - 1)) :=
  ⟨rfl, c10_action_history_accounting regStub jlStub (fun _ _ => "No: idle.") "p" _ rfl⟩

/-- C3: when the capability chosen in a round is missing from the
registry or its body raises, the round is not fatal: `_execute_tool`
returns the failure dict `{"error": msg}` (success is false) instead of
propagating an exception, that dict is recorded in the round's action
entry, and the loop takes exactly the step it takes for any returned
failure result — on to the next round, or a normal max-rounds stop when
the fuel is exhausted. -/
theorem c3_capability_failure_not_fatal (reg : ToolRegistry) (jl : String → Args)
    (oracle : Nat → String → String) (fuel cur : Nat) (p : String)
    (dh : List DecisionEntry) (ah : List ActionEntry) (name : String) (args : Args)
    (hfail : reg.get_tool name = none ∨
      ∃ f e, reg.get_tool name = some f ∧ f args = .error e)
    (hparse : parse_decision reg jl (oracle (cur + 1) p) = .ok (.useTool name args)) :
    (∃ msg, execute_tool reg name args = .dictRes false (some msg)) ∧
    chainLoop reg jl oracle (fuel + 1) cur p dh ah =
      (if fuel = 0 then
        .ok (.maxReached name args (execute_tool reg name args) (oracle (cur + 1) p)
          (dh ++ [⟨cur + 1, oracle (cur + 1) p⟩])
          (ah ++ [⟨cur + 1, name, args, execute_tool reg name args⟩]) (cur + 1))
      else
        chainLoop reg jl oracle fuel (cur + 1)
          (format_history (dh ++ [⟨cur + 1, oracle (cur + 1) p⟩])
            (ah ++ [⟨cur + 1, name, args, execute_tool reg name args⟩]))
          (dh ++ [⟨cur + 1, oracle (cur + 1) p⟩])
          (ah ++ [⟨cur + 1, name, args, execute_tool reg name args⟩])) := by
  constructor
  · rcases hfail with hnone | ⟨f, e, hsome, herr⟩
    · exact ⟨"Tool \x27" ++ name ++ "\x27 not found in registry",
        by simp [execute_tool, hnone]⟩
    · exact ⟨"Error executing tool \x27" ++ name ++ "\x27: " ++ e,
        by simp [execute_tool, hsome, herr]⟩
  · simp only [chainLoop]
    rw [hparse]

/-- A fixed oracle whose every answer asks for the (unregistered)
`send_notification` capability. -/
def askNotifOracle : Nat → String → String :=
  fun _ _ => "Yes: Call the send_notification tool with message \x27m\x27 because idle"

theorem c3_capability_failure_not_fatal_witness :
    regStub.get_tool "send_notification" = none ∧
    parse_decision regStub jlStub (askNotifOracle 1 "p") =
      .ok (.useTool "send_notification" [("message", "m")]) ∧
    ((∃ msg, execute_tool regStub "send_notification" [("message", "m")] =
        .dictRes false (some msg)) ∧
     chainLoop regStub jlStub askNotifOracle 5 0 "p" [] [] =
       chainLoop regStub jlStub askNotifOracle 4 1
         (format_history [⟨1, askNotifOracle 1 "p"⟩]
           [⟨1, "send_notification", [("message", "m")],
             execute_tool regStub "send_notification" [("message", "m")]⟩])
         [⟨1, askNotifOracle 1 "p"⟩]
         [⟨1, "send_notification", [("message", "m")],
           execute_tool regStub "send_notification" [("message", "m")]⟩]) :=
  ⟨rfl, rfl,
   c3_capability_failure_not_fatal regStub jlStub askNotifOracle 4 0 "p" [] []
     "send_notification" [("message", "m")] (Or.inl rfl) rfl⟩

/-- C9: for every round record visible to the context formatter whose
action result is a string, the formatter's per-round rendering
(`entryLines`, the loop body of `_format_history_for_next_iteration`,
applied per window index by `format_history`) shows the result line as
exactly the first 100 characters followed by `...` when the string is
longer than 100 characters, and as the unchanged string otherwise. -/
theorem c9_result_truncation (dh : List DecisionEntry) (ah : List ActionEntry)
    (idx : Nat) (d : DecisionEntry) (a : ActionEntry) (s : String)
    (hd : dh[idx]? = some d) (ha : ah[idx]? = some a)
    (hs : a.tool_result = .strRes s) :
    (100 < s.length → entryLines dh ah idx =
      ["Iteration " ++ toString d.iteration ++ " Decision: " ++ d.decision,
       "Iteration " ++ toString d.iteration ++ " Tool executed: " ++ a.tool_name ++
         "(" ++ renderArgs a.tool_args ++ ")",
       "Result: " ++ s.take 100 ++ "...", ""]) ∧
    (s.length ≤ 100 → entryLines dh ah idx =
      ["Iteration " ++ toString d.iteration ++ " Decision: " ++ d.decision,
       "Iteration " ++ toString d.iteration ++ " Tool executed: " ++ a.tool_name ++
         "(" ++ renderArgs a.tool_args ++ ")",
       "Result: " ++ s, ""]) := by
  unfold entryLines
  rw [hd, ha]
  constructor <;> intro h
  · simp [renderResult, hs, h]
  · simp [renderResult, hs, Nat.not_lt.mpr h]

theorem c9_result_truncation_witness :
    100 < longStr.length ∧
    entryLines [⟨1, "d"⟩] [⟨1, "t", [], .strRes longStr⟩] 0 =
      ["Iteration 1 Decision: d",
       "Iteration 1 Tool executed: t()",
       "Result: " ++ longStr.take 100 ++ "...", ""] :=
  ⟨by decide,
   (c9_result_truncation [⟨1, "d"⟩] [⟨1, "t", [], .strRes longStr⟩] 0
     ⟨1, "d"⟩ ⟨1, "t", [], .strRes longStr⟩ longStr rfl rfl rfl).1 (by decide)⟩

end AgentChainSpec
